import Mathlib

/-!
Shallow embedding of `main.py` of the rent-scraper backend.

The program is a FastAPI endpoint `GET /rent` that queries five property
sites (NoBroker, MagicBricks, 99acres, Housing, Makaan) concurrently,
parses listing cards out of each page, normalizes them into `Listing`
records and returns them sorted by price.

External collaborators are embedded as data:
* the HTTP transport: one `client.get` call is one `GetOutcome` value
  (a status/body response or a transport error);
* the BeautifulSoup DOM: a selected card is a `Card` record carrying the
  observable results of the DOM queries the code performs on it
  (`get_text`, `find("a")` and its `href` attribute, and
  `find(string=price-regex)`).

URL construction (query-string building, ScraperAPI wrapping) only feeds
the external transport and is not observable in any output, so it is not
modelled. Python's `sorted` is a stable sort; it is modelled by
`List.insertionSort`, which is also stable, so the two agree exactly.
-/

namespace RentScraper

/-- Python string slice `[:240]`: the first 240 characters (code points). -/
def take240 (s : String) : String := String.mk (s.data.take 240)

/-- Python `str.strip()`: drop leading and trailing whitespace. -/
def pyStrip (s : String) : String :=
  String.mk
    (((s.data.dropWhile Char.isWhitespace).reverse.dropWhile
        Char.isWhitespace).reverse)

/-- Python `s.startswith(p)`. -/
def pyStartsWith (s p : String) : Bool := p.data.isPrefixOf s.data

/-- Decimal digit characters read as a natural number (the effect of
Python's `int(...)` on a digit run). -/
def digitsToNat (ds : List Char) : Nat :=
  ds.foldl (fun acc c => acc * 10 + (c.toNat - '0'.toNat)) 0

/-- Search part of `parse_price_int` (main.py:60-66): Python
`re.search(r"(\d+)(k)?", txt)` on the normalized text, i.e. the leftmost
maximal digit run, multiplied by 1000 when immediately followed by `k`
(the text is already lower-cased). Returns `none` when no digit occurs. -/
def findNumberK : List Char → Option Nat
  | [] => none
  | c :: rest =>
    if c.isDigit then
      let run := (c :: rest).takeWhile Char.isDigit
      let after := (c :: rest).dropWhile Char.isDigit
      let v := digitsToNat run
      some (match after with
            | 'k' :: _ => v * 1000
            | _ => v)
    else findNumberK rest

/-- `parse_price_int` (main.py:55-66): empty text gives `None`; otherwise
commas are removed, the text is lower-cased, and the first `(\d+)(k)?`
match is read (times 1000 on a trailing `k`). -/
def parse_price_int (text : String) : Option Nat :=
  if text = "" then none
  else findNumberK ((text.data.filter (fun c => c ≠ ',')).map Char.toLower)

/-- True when the next three characters spell `BHK` case-insensitively. -/
def bhkLiteralAt (cs : List Char) : Bool :=
  match cs with
  | b :: h :: k :: _ => b.toLower = 'b' && h.toLower = 'h' && k.toLower = 'k'
  | _ => false

/-- Python `re.search(r"(\d+)\s*BHK", title, re.I)` (main.py:100, 172, 208,
244; the MagicBricks variant `(\d+)\s*BHK|(\d+)\s*bhk` at main.py:136
matches exactly the same strings under `re.I`, with group 1 always the one
set). Scans left to right; at each digit takes the maximal digit run, skips
whitespace, and requires the literal `BHK`; on failure resumes the scan one
character further, exactly like the regex engine. Returns group 1. -/
def bhk_search : List Char → Option (List Char)
  | [] => none
  | c :: rest =>
    if c.isDigit then
      let run := (c :: rest).takeWhile Char.isDigit
      let after := ((c :: rest).dropWhile Char.isDigit).dropWhile Char.isWhitespace
      if bhkLiteralAt after then some run else bhk_search rest
    else bhk_search rest

/-- The `bhk` field computed by every fetcher: `m.group(1) + " BHK"` when
the BHK regex matches the card title, else `None`. -/
def bhk_from_title (title : String) : Option String :=
  (bhk_search title.data).map (fun run => String.mk run ++ " BHK")

/-- Character class `[\d,]`. -/
def isDigitOrComma (c : Char) : Bool := c.isDigit || c = ','

/-- Python `re.search(r"₹\s?[\d,]+", title)` — the NoBroker price-text
fallback (main.py:97-98). Finds the leftmost `₹`, optionally one
whitespace, then a non-empty run of digits/commas; returns `m.group(0)`. -/
def rupee_price_search : List Char → Option String
  | [] => none
  | c :: rest =>
    if c = '₹' then
      match rest with
      | [] => none
      | w :: rest2 =>
        if w.isWhitespace then
          let run := rest2.takeWhile isDigitOrComma
          if run.isEmpty then rupee_price_search rest
          else some (String.mk ('₹' :: w :: run))
        else
          let run := rest.takeWhile isDigitOrComma
          if run.isEmpty then rupee_price_search rest
          else some (String.mk ('₹' :: run))
    else rupee_price_search rest

/-- Result of one `client.get` call: an HTTP response (any status) or a
transport-level exception. -/
inductive GetOutcome where
  | response (status : Nat) (body : String)
  | transportError (msg : String)
deriving Repr, DecidableEq

/-- `fetch_html` (main.py:44-53): performs one GET; `raise_for_status`
raises on status ≥ 400; any exception is re-raised to the caller
(`Except.error`). On success returns `r.text`. -/
def fetch_html : GetOutcome → Except String String
  | .transportError m => .error m
  | .response status body =>
    if 400 ≤ status then .error ("HTTP " ++ toString status) else .ok body

/-- `fetch_html` viewed against a stream of successive GET results
(`oracle n` is what the `n`-th GET attempt would return). The code body is
straight-line: it issues exactly one GET — the one at index 0 — so the
pair records the result together with the number of attempts made, 1. -/
def fetch_html_trace (oracle : Nat → GetOutcome) : Except String String × Nat :=
  (fetch_html (oracle 0), 1)

/-- An `<a>` element found inside a card, with its optional `href`. -/
structure Anchor where
  href : Option String
deriving Repr, DecidableEq

/-- One selected card element, as observed through the DOM queries the
fetchers perform: `get_text(separator=" ", strip=True)`, `find("a")`, and
`find(string=<price regex>)` (the found string node, if any). -/
structure Card where
  text : String
  anchor : Option Anchor
  priceNode : Option String
deriving Repr, DecidableEq

/-- The pydantic `Listing` model (main.py:21-28). -/
structure Listing where
  site : String
  bhk : Option String := none
  price : Option Nat := none
  price_text : Option String := none
  area : Option String := none
  title : Option String := none
  link : Option String := none
deriving Repr, DecidableEq

/-- The pydantic `RentResponse` model (main.py:30-33). -/
structure RentResponse where
  society : String
  city : Option String
  results : List Listing
deriving Repr, DecidableEq

/-- The link computation shared by NoBroker/MagicBricks/Housing/Makaan
(e.g. main.py:89): `"<root>" + link["href"] if link and
link.get("href", "").startswith("/") else (link["href"] if link else
None)`. When the anchor exists but has no `href`, `link["href"]` raises
`KeyError` — the per-card `except` then skips the whole card, which we
signal with the outer `none`. -/
def linkFromRoot (root : String) (anchor : Option Anchor) :
    Option (Option String) :=
  match anchor with
  | none => some none
  | some a =>
    match a.href with
    | none => none
    | some h => some (some (if pyStartsWith h "/" then root ++ h else h))

/-- The 99acres link computation (main.py:166): `link["href"] if link and
link.get("href") else None` — no exception possible, empty `href` is
falsy. -/
def link99acres (anchor : Option Anchor) : Option String :=
  match anchor with
  | some a =>
    match a.href with
    | some h => if h = "" then none else some h
    | none => none
  | none => none

/-- Card body of `fetch_nobroker` (main.py:85-113): `none` when the
per-card `try` raises (missing `href` on a present anchor) and the card is
skipped. Price text is the found price string node stripped, else the
`₹\s?[\d,]+` fallback on the title, else `None`. -/
def mk_nobroker (c : Card) : Option Listing :=
  let title := take240 c.text
  match linkFromRoot "https://www.nobroker.in" c.anchor with
  | none => none
  | some linkUrl =>
    let priceText : Option String :=
      match c.priceNode with
      | some pt => some (pyStrip pt)
      | none => rupee_price_search title.data
    some { site := "NoBroker", title := some title, link := linkUrl,
           price_text := priceText,
           price := parse_price_int (priceText.getD ""),
           bhk := bhk_from_title title }

/-- Card body of `fetch_magicbricks` (main.py:126-149): price text starts
as `""` and becomes the stripped price node when one is found (no regex
fallback on the title). -/
def mk_magicbricks (c : Card) : Option Listing :=
  let title := take240 c.text
  match linkFromRoot "https://www.magicbricks.com" c.anchor with
  | none => none
  | some linkUrl =>
    let priceText : String :=
      match c.priceNode with
      | some pt => pyStrip pt
      | none => ""
    some { site := "MagicBricks", title := some title, link := linkUrl,
           price_text := some priceText,
           price := parse_price_int priceText,
           bhk := bhk_from_title title }

/-- Card body of `fetch_99acres` (main.py:162-185). -/
def mk_99acres (c : Card) : Option Listing :=
  let title := take240 c.text
  let priceText : String :=
    match c.priceNode with
    | some pt => pyStrip pt
    | none => ""
  some { site := "99acres", title := some title,
         link := link99acres c.anchor,
         price_text := some priceText,
         price := parse_price_int priceText,
         bhk := bhk_from_title title }

/-- Card body of `fetch_housing` (main.py:198-221). -/
def mk_housing (c : Card) : Option Listing :=
  let title := take240 c.text
  match linkFromRoot "https://housing.com" c.anchor with
  | none => none
  | some linkUrl =>
    let priceText : String :=
      match c.priceNode with
      | some pt => pyStrip pt
      | none => ""
    some { site := "Housing", title := some title, link := linkUrl,
           price_text := some priceText,
           price := parse_price_int priceText,
           bhk := bhk_from_title title }

/-- Card body of `fetch_makaan` (main.py:234-257). -/
def mk_makaan (c : Card) : Option Listing :=
  let title := take240 c.text
  match linkFromRoot "https://www.makaan.com" c.anchor with
  | none => none
  | some linkUrl =>
    let priceText : String :=
      match c.priceNode with
      | some pt => pyStrip pt
      | none => ""
    some { site := "Makaan", title := some title, link := linkUrl,
           price_text := some priceText,
           price := parse_price_int priceText,
           bhk := bhk_from_title title }

/-- `fetch_nobroker` (main.py:70-114): on any exception from `fetch_html`
return `[]`; otherwise process the first 8 selected cards, skipping any
card whose body raises. `cards` is what the CSS selection returns on the
fetched body. -/
def fetch_nobroker (outcome : GetOutcome) (cards : List Card) : List Listing :=
  match fetch_html outcome with
  | .error _ => []
  | .ok _ => (cards.take 8).filterMap mk_nobroker

/-- `fetch_magicbricks` (main.py:116-150). -/
def fetch_magicbricks (outcome : GetOutcome) (cards : List Card) : List Listing :=
  match fetch_html outcome with
  | .error _ => []
  | .ok _ => (cards.take 8).filterMap mk_magicbricks

/-- `fetch_99acres` (main.py:152-186). -/
def fetch_99acres (outcome : GetOutcome) (cards : List Card) : List Listing :=
  match fetch_html outcome with
  | .error _ => []
  | .ok _ => (cards.take 8).filterMap mk_99acres

/-- `fetch_housing` (main.py:188-222). -/
def fetch_housing (outcome : GetOutcome) (cards : List Card) : List Listing :=
  match fetch_html outcome with
  | .error _ => []
  | .ok _ => (cards.take 8).filterMap mk_housing

/-- `fetch_makaan` (main.py:224-258). -/
def fetch_makaan (outcome : GetOutcome) (cards : List Card) : List Listing :=
  match fetch_html outcome with
  | .error _ => []
  | .ok _ => (cards.take 8).filterMap mk_makaan

/-- The transport result and selected cards feeding one site fetcher. -/
structure SiteData where
  outcome : GetOutcome
  cards : List Card
deriving Repr, DecidableEq

/-- The result-collection loop of `get_rent` (main.py:279-296): iterate
over `asyncio.gather(..., return_exceptions=True)` results, skip any that
is an exception, and append every item of the rest (the
`Listing(...).dict()` normalization is the identity on our records). -/
def collect_results (allResults : List (Except String (List Listing))) :
    List Listing :=
  allResults.foldl
    (fun acc r =>
      match r with
      | .error _ => acc
      | .ok items => acc ++ items)
    []

/-- The sort key of main.py:299: `x.get("price") or 10**12` — both a
missing price and a price of 0 are falsy and map to the sentinel. -/
def price_key (l : Listing) : Nat :=
  match l.price with
  | none => 10 ^ 12
  | some 0 => 10 ^ 12
  | some p => p

/-- The comparison `sorted` uses on main.py:299. -/
def priceLE (a b : Listing) : Prop := price_key a ≤ price_key b

instance : DecidableRel priceLE := fun a b => Nat.decLe _ _

instance : IsTotal Listing priceLE := ⟨fun a b => Nat.le_total _ _⟩

instance : IsTrans Listing priceLE := ⟨fun _ _ _ => Nat.le_trans⟩

/-- `get_rent` (main.py:262-301) after query validation: run the five site
fetchers (concurrently, via `asyncio.gather` with `return_exceptions`),
collect their listings skipping exceptional results, sort stably by the
price key and wrap in a `RentResponse`. Python's `sorted` is a stable
sort, modelled by the stable `List.insertionSort`. -/
def get_rent (society : String) (city : Option String)
    (nb mb ac hs mk : SiteData) : RentResponse :=
  let allResults : List (Except String (List Listing)) :=
    [Except.ok (fetch_nobroker nb.outcome nb.cards),
     Except.ok (fetch_magicbricks mb.outcome mb.cards),
     Except.ok (fetch_99acres ac.outcome ac.cards),
     Except.ok (fetch_housing hs.outcome hs.cards),
     Except.ok (fetch_makaan mk.outcome mk.cards)]
  let results := collect_results allResults
  { society := society, city := city,
    results := results.insertionSort priceLE }

/-- The `/rent` route with its FastAPI query validation (main.py:263):
`society: str = Query(..., min_length=2)` — a missing society or one
shorter than 2 characters is rejected with a validation error before the
handler runs; `city: Optional[str] = Query(None)` is never validated. -/
def rent_route (society : Option String) (city : Option String)
    (nb mb ac hs mk : SiteData) : Except String RentResponse :=
  match society with
  | none => .error "field required: society"
  | some s =>
    if s.length < 2 then
      .error "society: ensure this value has at least 2 characters"
    else .ok (get_rent s city nb mb ac hs mk)

/-- Modelled from the spec: `is_sane` (§4.5) does not exist anywhere in
`src/main.py`; the code performs no sanity filtering. Following the
spec's words: the rent must be strictly below 500000, and at least 20000
for 2-BHK-or-larger labels, at least 5000 for 1-BHK. The BHK count is the
leading digit run of the label (labels have the shape `"<N> BHK"`). -/
def is_sane (bhkLabel : String) (rent : Nat) : Bool :=
  decide (rent < 500000) &&
    (if 2 ≤ digitsToNat (bhkLabel.data.takeWhile Char.isDigit)
     then decide (20000 ≤ rent)
     else decide (5000 ≤ rent))

/-- Whether the route produced a response (`Except.ok`) rather than a
validation error. -/
def route_ok : Except String RentResponse → Bool
  | .ok _ => true
  | .error _ => false

/-- A site whose fetch succeeds with an empty page: no cards selected, so
no listings. Used to instantiate concrete scenarios. -/
def siteStub : SiteData := ⟨.response 200 "", []⟩

/-- Concrete NoBroker card: a 1-BHK listing priced 8000. -/
def c2_cardA : Card :=
  { text := "Sunshine Residency 1 BHK Apartment", anchor := none,
    priceNode := some "₹ 8,000" }

/-- Concrete NoBroker card: a 1-BHK listing priced 12000. -/
def c2_cardB : Card :=
  { text := "Sunshine Residency 1 BHK Apartment", anchor := none,
    priceNode := some "₹ 12,000" }

/-- Concrete NoBroker card for the probing-order scenario. -/
def c3_nbCard : Card :=
  { text := "Green Meadows 1 BHK", anchor := none, priceNode := some "₹ 8,000" }

/-- Concrete MagicBricks card for the probing-order scenario. -/
def c3_mbCard : Card :=
  { text := "Green Meadows 2 BHK", anchor := none, priceNode := some "₹ 12,000" }

/-- A transport oracle whose first GET fails and whose retries would
succeed. -/
def c5_oracle : Nat → GetOutcome
  | 0 => .transportError "connect timeout"
  | _ => .response 200 "recovered body"

/-- Concrete card whose parsed price is 2·10^12, above the sort
sentinel. -/
def c10_bigCard : Card :=
  { text := "Penthouse", anchor := none, priceNode := some "₹2000000000000" }

/-- Concrete card with no price information at all. -/
def c10_noneCard : Card :=
  { text := "Cozy flat", anchor := none, priceNode := none }

/-- Characterization of `Char.isDigit` through `Char.toNat`. -/
theorem char_isDigit_iff (c : Char) :
    c.isDigit = true ↔ (48 ≤ c.toNat ∧ c.toNat ≤ 57) := by
  simp only [Char.isDigit, Char.toNat, UInt32.le_def, BitVec.le_def,
    Bool.and_eq_true, decide_eq_true_eq]
  exact ⟨fun ⟨a, b⟩ => ⟨a, b⟩, fun ⟨a, b⟩ => ⟨a, b⟩⟩

/-- A character whose code point is outside `[48, 57]` is not a digit. -/
theorem char_isDigit_false (c : Char) (h : ¬(48 ≤ c.toNat ∧ c.toNat ≤ 57)) :
    c.isDigit = false := by
  cases hd : c.isDigit
  · rfl
  · exact absurd ((char_isDigit_iff c).mp hd) h

/-- Lower-casing preserves digitness: `toLower` only moves `[65, 90]` to
`[97, 122]`, both disjoint from the digit range. -/
theorem isDigit_toLower (c : Char) : (c.toLower).isDigit = c.isDigit := by
  by_cases h : c.toNat ≥ 65 ∧ c.toNat ≤ 90
  · obtain ⟨h1, h2⟩ := h
    have hlow : c.toLower = Char.ofNat (c.toNat + 32) := by
      simp [Char.toLower, h1, h2]
    have hvalid : (c.toNat + 32).isValidChar := by
      left; omega
    have htn : (Char.ofNat (c.toNat + 32)).toNat = c.toNat + 32 := by
      rw [Char.ofNat, dif_pos hvalid]
      simp [Char.ofNatAux, Char.toNat, UInt32.toNat]
    rw [hlow, char_isDigit_false _ (by omega), char_isDigit_false c (by omega)]
  · have hlow : c.toLower = c := by
      simp [Char.toLower]
      omega
    rw [hlow]

/-- The number search fails exactly on digit-free character lists. -/
theorem findNumberK_eq_none_iff (cs : List Char) :
    findNumberK cs = none ↔ ∀ c ∈ cs, c.isDigit = false := by
  induction cs with
  | nil => simp [findNumberK]
  | cons c rest ih =>
    cases h : c.isDigit with
    | true => simp [findNumberK, h]
    | false => simp [findNumberK, h, ih]

/-- `parse_price_int` returns `None` exactly when the text has no digit
character (comma removal drops no digit and lower-casing preserves
digitness). -/
theorem parse_price_int_eq_none_iff (t : String) :
    parse_price_int t = none ↔ ∀ c ∈ t.data, c.isDigit = false := by
  unfold parse_price_int
  by_cases ht : t = ""
  · subst ht
    simp
  · simp only [ht, if_false, findNumberK_eq_none_iff]
    constructor
    · intro h c hc
      by_cases hcomma : c = ','
      · subst hcomma; rfl
      · have hmem : c.toLower ∈ (t.data.filter (fun x => x ≠ ',')).map Char.toLower :=
          List.mem_map_of_mem _ (List.mem_filter.mpr ⟨hc, by simp [hcomma]⟩)
        have hlow := h _ hmem
        rwa [isDigit_toLower] at hlow
    · intro h d hd
      obtain ⟨c, hc, rfl⟩ := List.mem_map.mp hd
      have hcm := List.mem_filter.mp hc
      rw [isDigit_toLower]
      exact h c hcm.1

/-- The BHK regex cannot match a digit-free character list. -/
theorem bhk_search_eq_none (cs : List Char) (h : ∀ c ∈ cs, c.isDigit = false) :
    bhk_search cs = none := by
  induction cs with
  | nil => rfl
  | cons c rest ih =>
    have hc : c.isDigit = false := h c (by simp)
    simp [bhk_search, hc]
    exact ih (fun d hd => h d (by simp [hd]))

/-- At most 8 listings come out of one card list, whatever the per-card
builder. -/
theorem listing_take8_len (cards : List Card) (f : Card → Option Listing) :
    ((cards.take 8).filterMap f).length ≤ 8 :=
  (List.length_filterMap_le f _).trans (List.length_take_le 8 cards)

/-- C1 (counterexample): the claim says a caller-visible error is raised
exactly for an empty/missing society or an empty/missing city. But the
route rejects the 1-character society `"a"` (which is neither empty nor
missing, with a non-empty city present), and it accepts a missing city
and an empty city without any error. -/
theorem c1_counterexample :
    route_ok (rent_route (some "a") (some "Pune") siteStub siteStub siteStub
        siteStub siteStub) = false
    ∧ ("a" : String) ≠ ""
    ∧ route_ok (rent_route (some "ab") none siteStub siteStub siteStub
        siteStub siteStub) = true
    ∧ route_ok (rent_route (some "ab") (some "") siteStub siteStub siteStub
        siteStub siteStub) = true := by decide

/-- C1 (amended): the route returns a result object exactly when the
society parameter is present with at least 2 characters (FastAPI
`Query(..., min_length=2)`); the city parameter is never validated, and
"nothing found" is never an error — whenever the society is valid the
route returns `ok`, whatever the site data. -/
theorem c1_route_errors_only_for_short_or_missing_society
    (society city : Option String) (nb mb ac hs mk : SiteData) :
    (∃ r, rent_route society city nb mb ac hs mk = Except.ok r)
      ↔ ∃ s, society = some s ∧ 2 ≤ s.length := by
  cases society with
  | none => simp [rent_route]
  | some s =>
    by_cases h : s.length < 2
    · simp only [rent_route, if_pos h]
      constructor
      · rintro ⟨r, hr⟩
        cases hr
      · rintro ⟨s2, hs2, hlen⟩
        cases hs2
        omega
    · simp only [rent_route, if_neg h]
      exact ⟨fun _ => ⟨s, rfl, by omega⟩, fun _ => ⟨_, rfl⟩⟩

/-- C1 (witness): the amended theorem instantiated at a 2-character
society with a missing city. -/
theorem c1_witness :
    (∃ r, rent_route (some "ab") none siteStub siteStub siteStub siteStub
        siteStub = Except.ok r)
      ↔ ∃ s, (some "ab" : Option String) = some s ∧ 2 ≤ s.length :=
  c1_route_errors_only_for_short_or_missing_society (some "ab") none siteStub
    siteStub siteStub siteStub siteStub

/-- C2 (counterexample): two valid matching 1-BHK cards with rents 8000
and 12000 do not aggregate to a single `{"1 BHK": 12000}` entry — the
endpoint keeps both listings; no per-label maximum is taken. -/
theorem c2_counterexample :
    ((get_rent "sunshine residency" (some "pune")
          ⟨.response 200 "page", [c2_cardA, c2_cardB]⟩
          siteStub siteStub siteStub siteStub).results.map
        (fun l => (l.bhk, l.price)))
      = [(some "1 BHK", some 8000), (some "1 BHK", some 12000)]
    ∧ ([(some "1 BHK", some 8000), (some "1 BHK", some 12000)]
          : List (Option String × Option Nat))
        ≠ [(some "1 BHK", some 12000)] := by decide

/-- C2 (amended): the endpoint returns every listing individually, sorted
ascending by price, with no per-BHK max-reduction: the two 1-BHK signals
with rents 8000 and 12000 both appear, 8000 first. -/
theorem c2_all_listings_kept :
    ((get_rent "sunshine residency" (some "pune")
          ⟨.response 200 "page", [c2_cardA, c2_cardB]⟩
          siteStub siteStub siteStub siteStub).results.map
        (fun l => (l.bhk, l.price)))
      = [(some "1 BHK", some 8000), (some "1 BHK", some 12000)] := by decide

/-- C3 (counterexample): the first source returns a non-empty listing
set, yet the response still contains a listing from the second source —
there is no short-circuit after the first success and no
invoked-only-on-failure fallback. -/
theorem c3_counterexample :
    fetch_nobroker (.response 200 "page") [c3_nbCard] ≠ []
    ∧ ((get_rent "green meadows" none ⟨.response 200 "page", [c3_nbCard]⟩
          ⟨.response 200 "page", [c3_mbCard]⟩ siteStub siteStub
          siteStub).results.map (fun l => l.site))
        = ["NoBroker", "MagicBricks"] := by decide

/-- C3 (amended): all five site fetchers are invoked on every request
(concurrently via `asyncio.gather`) and the endpoint's results are
exactly the combined listings of all five sites, reordered by price:
every site contributes regardless of what the other sites returned. -/
theorem c3_all_sites_contribute (s : String) (c : Option String)
    (nb mb ac hs mk : SiteData) :
    ((get_rent s c nb mb ac hs mk).results).Perm
      (fetch_nobroker nb.outcome nb.cards ++ fetch_magicbricks mb.outcome mb.cards
        ++ fetch_99acres ac.outcome ac.cards ++ fetch_housing hs.outcome hs.cards
        ++ fetch_makaan mk.outcome mk.cards) :=
  List.perm_insertionSort priceLE _

/-- C3 (witness): the amended theorem instantiated at empty stub sites. -/
theorem c3_witness :
    ((get_rent "ab" none siteStub siteStub siteStub siteStub
        siteStub).results).Perm
      (fetch_nobroker siteStub.outcome siteStub.cards
        ++ fetch_magicbricks siteStub.outcome siteStub.cards
        ++ fetch_99acres siteStub.outcome siteStub.cards
        ++ fetch_housing siteStub.outcome siteStub.cards
        ++ fetch_makaan siteStub.outcome siteStub.cards) :=
  c3_all_sites_contribute "ab" none siteStub siteStub siteStub siteStub siteStub

/-- C4: a transport error or non-success status on one site's fetch is
recovered locally: that fetcher returns `[]` (no signal for that one
candidate), the other four sites' listings are untouched, and the route
still returns a result object whenever the query is valid. -/
theorem c4_fetch_failure_local_degradation (g : GetOutcome) (e : String)
    (h : fetch_html g = Except.error e) (cards : List Card) (s : String)
    (c : Option String) (mb ac hs mk : SiteData) :
    fetch_nobroker g cards = []
    ∧ ((get_rent s c ⟨g, cards⟩ mb ac hs mk).results).Perm
        (fetch_magicbricks mb.outcome mb.cards ++ fetch_99acres ac.outcome ac.cards
          ++ fetch_housing hs.outcome hs.cards ++ fetch_makaan mk.outcome mk.cards)
    ∧ route_ok (rent_route (some s) c ⟨g, cards⟩ mb ac hs mk)
        = decide (2 ≤ s.length) := by
  have h1 : fetch_nobroker g cards = [] := by
    unfold fetch_nobroker
    rw [h]
  refine ⟨h1, ?_, ?_⟩
  · have hperm := List.perm_insertionSort priceLE
      (collect_results
        [Except.ok (fetch_nobroker g cards),
         Except.ok (fetch_magicbricks mb.outcome mb.cards),
         Except.ok (fetch_99acres ac.outcome ac.cards),
         Except.ok (fetch_housing hs.outcome hs.cards),
         Except.ok (fetch_makaan mk.outcome mk.cards)])
    unfold get_rent
    refine hperm.trans ?_
    rw [h1]
    simp [collect_results]
  · by_cases h2 : s.length < 2
    · have hd : decide (2 ≤ s.length) = false := by
        simp
        omega
      simp [rent_route, h2, route_ok, hd]
    · have hd : decide (2 ≤ s.length) = true := by
        simp
        omega
      simp [rent_route, h2, route_ok, hd]

/-- C4 (witness): a concrete transport failure on the NoBroker fetch. -/
theorem c4_witness :
    fetch_nobroker (.transportError "timeout") [] = []
    ∧ ((get_rent "soc" none ⟨.transportError "timeout", []⟩ siteStub siteStub
          siteStub siteStub).results).Perm
        (fetch_magicbricks siteStub.outcome siteStub.cards
          ++ fetch_99acres siteStub.outcome siteStub.cards
          ++ fetch_housing siteStub.outcome siteStub.cards
          ++ fetch_makaan siteStub.outcome siteStub.cards)
    ∧ route_ok (rent_route (some "soc") none ⟨.transportError "timeout", []⟩
          siteStub siteStub siteStub siteStub)
        = decide (2 ≤ ("soc" : String).length) :=
  c4_fetch_failure_local_degradation (.transportError "timeout") "timeout" rfl
    [] "soc" none siteStub siteStub siteStub siteStub

/-- C5 (counterexample): against an oracle whose first GET fails and whose
second would succeed, `fetch_html` makes exactly one attempt (not up to
3), performs no backoff, and propagates the error (`Except.error`) instead
of returning a `Failed` outcome with an empty body. -/
theorem c5_counterexample :
    fetch_html_trace c5_oracle = (Except.error "connect timeout", 1)
    ∧ (1 : Nat) ≠ 3
    ∧ fetch_html (c5_oracle 1) = Except.ok "recovered body" :=
  ⟨rfl, by decide, rfl⟩

/-- C5 (amended): `fetch_html` performs the GET exactly once with no
retry and no backoff; a transport error or a status ≥ 400 is raised to
the caller (the per-site fetchers catch it and degrade to an empty
listing list), and a status < 400 returns the body. -/
theorem c5_single_attempt_no_retry (oracle : Nat → GetOutcome) :
    fetch_html_trace oracle = (fetch_html (oracle 0), 1)
    ∧ (∀ m : String, fetch_html (.transportError m) = .error m)
    ∧ (∀ status body, 400 ≤ status →
        fetch_html (.response status body) = .error ("HTTP " ++ toString status))
    ∧ (∀ status body, status < 400 →
        fetch_html (.response status body) = .ok body)
    ∧ (∀ m (cards : List Card),
        fetch_nobroker (.transportError m) cards = []) := by
  refine ⟨rfl, fun m => rfl, ?_, ?_, fun m cards => rfl⟩
  · intro status body hst
    simp [fetch_html, hst]
  · intro status body hst
    simp [fetch_html, Nat.not_le.mpr hst]

/-- C5 (witness): the amended theorem instantiated at the concrete oracle
and at a concrete 503 response. -/
theorem c5_witness :
    fetch_html_trace c5_oracle = (fetch_html (c5_oracle 0), 1)
    ∧ fetch_html (.response 503 "oops") = .error ("HTTP " ++ toString 503) :=
  ⟨(c5_single_attempt_no_retry c5_oracle).1,
   (c5_single_attempt_no_retry c5_oracle).2.2.1 503 "oops" (by decide)⟩

/-- C6 (counterexample): on a text with two currency-marked tokens the
extraction returns the first number (8000), not the maximum (12000). -/
theorem c6_counterexample :
    parse_price_int "₹8000 and ₹12000" = some 8000
    ∧ (some 8000 : Option Nat) ≠ some 12000 := by decide

/-- C6 (amended): `parse_price_int` strips commas, lower-cases, and
returns the number formed by the first (leftmost) digit run, times 1000
when immediately followed by `k`; currency markers are ignored and no
maximum is taken. It is absent exactly when the text contains no digit
at all (in particular on the empty text). -/
theorem c6_first_number_not_max :
    (∀ t : String, parse_price_int t = none ↔ ∀ c ∈ t.data, c.isDigit = false)
    ∧ parse_price_int "₹ 32,000" = some 32000
    ∧ parse_price_int "32k" = some 32000
    ∧ parse_price_int "₹8000 and ₹12000" = some 8000
    ∧ parse_price_int "" = none :=
  ⟨parse_price_int_eq_none_iff, by decide, by decide, by decide, by decide⟩

/-- C6 (witness): the none-characterization applied to a digit-free
text. -/
theorem c6_witness : parse_price_int "no digits here" = none :=
  (c6_first_number_not_max.1 "no digits here").mpr (by decide)

/-- C7 (counterexample): the BHK regex `(\d+)\s*BHK` does not allow a
hyphen between the digits and `BHK`, so `"Spacious 2-BHK flat"` yields no
BHK label, contradicting the claimed `"2 BHK"`. -/
theorem c7_counterexample :
    bhk_from_title "Spacious 2-BHK flat" = none
    ∧ (none : Option String) ≠ some "2 BHK" := by decide

/-- C7 (amended): BHK extraction matches digits, optional whitespace
(not a hyphen), then `BHK` case-insensitively, returning `"<N> BHK"`;
`"Spacious 2 BHK flat"` gives `"2 BHK"`, while `"Spacious 2-BHK flat"`
and digit-free texts give nothing. -/
theorem c7_bhk_whitespace_not_hyphen :
    bhk_from_title "Spacious 2 BHK flat" = some "2 BHK"
    ∧ bhk_from_title "no unit info" = none
    ∧ bhk_from_title "Spacious 2-BHK flat" = none
    ∧ bhk_from_title "4BHK penthouse" = some "4 BHK"
    ∧ (∀ t : String,
        (∀ c ∈ t.data, c.isDigit = false) → bhk_from_title t = none) := by
  refine ⟨by decide, by decide, by decide, by decide, ?_⟩
  intro t h
  unfold bhk_from_title
  rw [bhk_search_eq_none t.data h]
  rfl

/-- C7 (witness): the digit-free conjunct applied to a concrete text. -/
theorem c7_witness : bhk_from_title "flat" = none :=
  c7_bhk_whitespace_not_hyphen.2.2.2.2 "flat" (by decide)

/-- C8: `is_sane` (modelled from the spec, absent from the code) holds
iff the rent is strictly below 500000 and at least 20000 for
2-BHK-or-larger labels, or at least 5000 for 1-BHK; including the four
quoted example evaluations. -/
theorem c8_is_sane_bounds :
    (∀ rent : Nat, is_sane "1 BHK" rent
        = (decide (rent < 500000) && decide (5000 ≤ rent)))
    ∧ (∀ rent : Nat, is_sane "2 BHK" rent
        = (decide (rent < 500000) && decide (20000 ≤ rent)))
    ∧ (∀ rent : Nat, is_sane "3 BHK" rent
        = (decide (rent < 500000) && decide (20000 ≤ rent)))
    ∧ is_sane "1 BHK" 4999 = false
    ∧ is_sane "1 BHK" 5000 = true
    ∧ is_sane "2 BHK" 19999 = false
    ∧ is_sane "3 BHK" 600000 = false :=
  ⟨fun _ => rfl, fun _ => rfl, fun _ => rfl, by decide, by decide, by decide,
   by decide⟩

/-- C8 (witness): the 2-BHK characterization applied at rent 25000. -/
theorem c8_witness :
    is_sane "2 BHK" 25000
      = (decide ((25000 : Nat) < 500000) && decide ((20000 : Nat) ≤ 25000)) :=
  c8_is_sane_bounds.2.1 25000

/-- C9: each site fetcher processes only the first 8 selected cards, so
each returns at most 8 listings and the endpoint's aggregated result
list has at most 40 entries. -/
theorem c9_at_most_8_per_site_40_total (s : String) (c : Option String)
    (nb mb ac hs mk : SiteData) :
    (fetch_nobroker nb.outcome nb.cards).length ≤ 8
    ∧ (fetch_magicbricks mb.outcome mb.cards).length ≤ 8
    ∧ (fetch_99acres ac.outcome ac.cards).length ≤ 8
    ∧ (fetch_housing hs.outcome hs.cards).length ≤ 8
    ∧ (fetch_makaan mk.outcome mk.cards).length ≤ 8
    ∧ ((get_rent s c nb mb ac hs mk).results).length ≤ 40 := by
  have hnb : (fetch_nobroker nb.outcome nb.cards).length ≤ 8 := by
    unfold fetch_nobroker
    cases fetch_html nb.outcome
    · simp
    · exact listing_take8_len _ _
  have hmb : (fetch_magicbricks mb.outcome mb.cards).length ≤ 8 := by
    unfold fetch_magicbricks
    cases fetch_html mb.outcome
    · simp
    · exact listing_take8_len _ _
  have hac : (fetch_99acres ac.outcome ac.cards).length ≤ 8 := by
    unfold fetch_99acres
    cases fetch_html ac.outcome
    · simp
    · exact listing_take8_len _ _
  have hhs : (fetch_housing hs.outcome hs.cards).length ≤ 8 := by
    unfold fetch_housing
    cases fetch_html hs.outcome
    · simp
    · exact listing_take8_len _ _
  have hmk : (fetch_makaan mk.outcome mk.cards).length ≤ 8 := by
    unfold fetch_makaan
    cases fetch_html mk.outcome
    · simp
    · exact listing_take8_len _ _
  refine ⟨hnb, hmb, hac, hhs, hmk, ?_⟩
  have hperm := List.perm_insertionSort priceLE
    (collect_results
      [Except.ok (fetch_nobroker nb.outcome nb.cards),
       Except.ok (fetch_magicbricks mb.outcome mb.cards),
       Except.ok (fetch_99acres ac.outcome ac.cards),
       Except.ok (fetch_housing hs.outcome hs.cards),
       Except.ok (fetch_makaan mk.outcome mk.cards)])
  have hlen := hperm.length_eq
  unfold get_rent
  rw [hlen]
  simp only [collect_results, List.foldl, List.nil_append, List.length_append]
  omega

/-- C9 (witness): the bounds instantiated at empty stub sites. -/
theorem c9_witness :
    (fetch_nobroker siteStub.outcome siteStub.cards).length ≤ 8
    ∧ (fetch_magicbricks siteStub.outcome siteStub.cards).length ≤ 8
    ∧ (fetch_99acres siteStub.outcome siteStub.cards).length ≤ 8
    ∧ (fetch_housing siteStub.outcome siteStub.cards).length ≤ 8
    ∧ (fetch_makaan siteStub.outcome siteStub.cards).length ≤ 8
    ∧ ((get_rent "ab" none siteStub siteStub siteStub siteStub
          siteStub).results).length ≤ 40 :=
  c9_at_most_8_per_site_40_total "ab" none siteStub siteStub siteStub siteStub
    siteStub

/-- C10 (counterexample): a listing whose parsed price is 2·10^12 — above
the `10**12` sort sentinel — is placed after a listing with no price at
all, so a positive-price listing can follow an absent-price listing. -/
theorem c10_counterexample :
    ((get_rent "soc" none ⟨.response 200 "page", [c10_bigCard, c10_noneCard]⟩
          siteStub siteStub siteStub siteStub).results.map (fun l => l.price))
      = [none, some 2000000000000]
    ∧ (0 : Nat) < 2000000000000 ∧ (2000000000000 : Nat) ≠ 0 := by decide

/-- C10 (amended): the endpoint's results are sorted ascending by the key
"price if present and non-zero, else 10^12"; consequently a listing with
an absent or zero price is never followed by a listing with a positive
price below 10^12 (only prices at or above the sentinel may follow). -/
theorem c10_sorted_by_sentinel_key (s : String) (c : Option String)
    (nb mb ac hs mk : SiteData) :
    ((get_rent s c nb mb ac hs mk).results).Pairwise priceLE
    ∧ ((get_rent s c nb mb ac hs mk).results).Pairwise
        (fun a b => (a.price = none ∨ a.price = some 0) →
          ∀ p, b.price = some p → 0 < p → p < 10 ^ 12 → False) := by
  have hsorted : ((get_rent s c nb mb ac hs mk).results).Pairwise priceLE :=
    List.sorted_insertionSort priceLE _
  refine ⟨hsorted, hsorted.imp ?_⟩
  intro a b hab habs p hbp hp hplt
  have ka : price_key a = 10 ^ 12 := by
    rcases habs with h | h <;> simp [price_key, h]
  have kb : price_key b = p := by
    rcases p with _ | n
    · omega
    · simp [price_key, hbp]
  unfold priceLE at hab
  omega

/-- C10 (witness): the sortedness facts instantiated at empty stub
sites. -/
theorem c10_witness :
    ((get_rent "ab" none siteStub siteStub siteStub siteStub
        siteStub).results).Pairwise priceLE
    ∧ ((get_rent "ab" none siteStub siteStub siteStub siteStub
          siteStub).results).Pairwise
        (fun a b => (a.price = none ∨ a.price = some 0) →
          ∀ p, b.price = some p → 0 < p → p < 10 ^ 12 → False) :=
  c10_sorted_by_sentinel_key "ab" none siteStub siteStub siteStub siteStub
    siteStub

end RentScraper
